import Mathlib

/-!
Verification of `recipes.py` and `api_tutorials/keras_example.py` from the
dsde-deep-learning repository.

The embedding models:
* the command-line dispatch `run()` of `recipes.py` (an if/elif chain on
  `args.mode` selecting a recipe action);
* the local-name resolution of `bqsr_lstm_train_tensor` (which reads the
  unbound name `weight_path`);
* the shared-key list constructions of `test_tensor_and_annotations_vs_filters`
  and `test_tensor_vs_gnomad`;
* the test-directory listings of `test_reference_net`,
  `test_reference_annotation_net` and `test_annotation_multilayer_perceptron`;
* the module-level shadowing of the twice-defined `roc_curve_through_learning`;
* the tuple unpacking of `load_data` in `keras_example.py`.
-/

namespace Recipes

/-- Parsed command-line arguments, as produced by `arguments.parse_args()`.
Only the fields read by the functions modelled here are included. -/
structure Args where
  mode : String
  data_dir : String
  id : String
  samples : Nat
  epochs : Nat
  iterations : Nat
  batch_size : Nat
  window_size : Nat
  read_limit : Nat
  labels : List String
  annotations : String
  annotation_set : String
  single_sample_vqsr : Bool
  deep_variant_vcf : Bool
  channels_last : Bool
  deriving Repr, DecidableEq

/-- The action selected by one branch of `run()`'s dispatch chain: one
constructor per branch, in source order, plus the final `else` branch which
prints an error naming the unknown mode. -/
inductive RecipeAction where
  | make_reference_net
  | make_reference_annotation_net
  | train_reference_plus_skip
  | make_reference_annotation_net_1layer
  | make_annotation_multilayer_perceptron
  | train_ref_read_model
  | train_ref_read_resnet_model
  | train_ref_read_dilated_model
  | train_ref_read_model_b
  | train_ref_read_inception_model
  | train_pileup_filter
  | train_calling_model
  | train_calling_model_full
  | train_calling_model_1d
  | train_ref_read_annotation_model
  | train_ref_read_annotation_exome_model
  | bqsr_train_tensor
  | bqsr_train_annotation_tensor
  | bqsr_lstm_train_tensor
  | depristo_inception
  | test_tensor_and_annotations
  | test_ref_read_annotation_exome_model
  | test_tensor_vs_vcf
  | test_tensor_vs_multiple_vcfs
  | test_tensor_and_annotations_vs_filters
  | test_tensor_vs_gnomad
  | test_refconv_vs_gnomad
  | test_reference_annotation_net
  | test_reference_net
  | test_annotation_multilayer_perceptron
  | test_caller_pileup
  | test_caller_2d
  | test_architectures
  | plot_vcf_roc
  | plot_vcf_roc_gnomad_scores
  | plot_vcf_roc_gnomad_like_scores
  | plot_multi_vcf_roc
  | roc_curve_through_learning
  | roc_curve_through_learning_segmentation
  | td_tensors_from_tensor_map_with_annotations
  | td_paired_read_tensors_from_map
  | td_tensors_from_tensor_map_2channel
  | td_tensors_from_tensor_map_no_annotations
  | td_tensors_from_tensor_map_gnomad_annos
  | td_tensors_from_tensor_map_gnomad_annos_per_allele
  | td_tensors_from_tensor_map_gnomad_annos_1d
  | td_nist_samples_to_png
  | td_calling_tensors_from_tensor_map
  | td_tensors_from_tensor_map_pileup
  | td_calling_tensors_from_tensor_map_pileup
  | td_write_dna_and_annotations
  | td_write_dna_multisource_annotations
  | td_write_dna_multisource_annotations_dna_only
  | td_write_dna_multisource_annotations_annos_only
  | td_bqsr_tensors_from_tensor_map
  | write_filters_2d
  | write_filters_1d
  | td_write_tranches
  | td_inspect_read_tensors
  | td_inspect_dataset
  | inspect_architectures
  | td_inspect_gnomad_low_ac
  | td_combine_vcfs
  | unknown_mode (mode : String)
  deriving Repr

/-- `run()` of `recipes.py` (lines 36-180): dispatch on `args.mode`.
Each `elif` of the source is one `else if` here, in source order; the final
`else` prints an error naming the unknown mode. -/
def run (args : Args) : RecipeAction :=
  if args.mode = "train_reference" then .make_reference_net
  else if args.mode = "train_reference_annotation" then .make_reference_annotation_net
  else if args.mode = "train_reference_plus_skip" then .train_reference_plus_skip
  else if args.mode = "train_reference_1layer" then .make_reference_annotation_net_1layer
  else if args.mode = "train_annotation_mlp" then .make_annotation_multilayer_perceptron
  else if args.mode = "train_ref_read" then .train_ref_read_model
  else if args.mode = "train_ref_read_resnet" then .train_ref_read_resnet_model
  else if args.mode = "train_ref_read_dilated" then .train_ref_read_dilated_model
  else if args.mode = "train_train_ref_read_b" then .train_ref_read_model_b
  else if args.mode = "train_ref_read_bayes" then .train_ref_read_inception_model
  else if args.mode = "train_pileup_filter" then .train_pileup_filter
  else if args.mode = "train_calling_model" then .train_calling_model
  else if args.mode = "train_calling_full2d" then .train_calling_model_full
  else if args.mode = "train_calling_model_1d" then .train_calling_model_1d
  else if args.mode = "train_ref_read_anno" then .train_ref_read_annotation_model
  else if args.mode = "train_ref_read_anno_exome" then .train_ref_read_annotation_exome_model
  else if args.mode = "train_bqsr" then .bqsr_train_tensor
  else if args.mode = "train_bqsr_anno" then .bqsr_train_annotation_tensor
  else if args.mode = "train_bqsr_lstm" then .bqsr_lstm_train_tensor
  else if args.mode = "train_depristo_inception" then .depristo_inception
  else if args.mode = "test_tensor" then .test_tensor_and_annotations
  else if args.mode = "test_tensor_exome" then .test_ref_read_annotation_exome_model
  else if args.mode = "test_tensor_vcf" then .test_tensor_vs_vcf
  else if args.mode = "test_tensor_multi_vcf" then .test_tensor_vs_multiple_vcfs
  else if args.mode = "test_tensor_filters" then .test_tensor_and_annotations_vs_filters
  else if args.mode = "test_tensor_gnomad" then .test_tensor_vs_gnomad
  else if args.mode = "test_refconv_gnomad" then .test_refconv_vs_gnomad
  else if args.mode = "test_refconv" then .test_reference_annotation_net
  else if args.mode = "test_ref" then .test_reference_net
  else if args.mode = "test_anno_mlp" then .test_annotation_multilayer_perceptron
  else if args.mode = "test_caller" then .test_caller_pileup
  else if args.mode = "test_caller_2d" then .test_caller_2d
  else if args.mode = "test_architectures" then .test_architectures
  else if args.mode = "plot_vcf_roc" then .plot_vcf_roc
  else if args.mode = "plot_vcf_roc_gnomad" then .plot_vcf_roc_gnomad_scores
  else if args.mode = "plot_vcf_roc_gnomad_like" then .plot_vcf_roc_gnomad_like_scores
  else if args.mode = "plot_multi_vcf_roc" then .plot_multi_vcf_roc
  else if args.mode = "roc_animation" then .roc_curve_through_learning
  else if args.mode = "pr_segmentation_animation" then .roc_curve_through_learning_segmentation
  else if args.mode = "write_tensors" then .td_tensors_from_tensor_map_with_annotations
  else if args.mode = "write_paired_read_tensors" then .td_paired_read_tensors_from_map
  else if args.mode = "write_tensors_2bit" then .td_tensors_from_tensor_map_2channel
  else if args.mode = "write_tensors_no_annotations" then .td_tensors_from_tensor_map_no_annotations
  else if args.mode = "write_tensors_gnomad_annotations" then .td_tensors_from_tensor_map_gnomad_annos
  else if args.mode = "write_tensors_gnomad_annotations_per_allele_1d" then .td_tensors_from_tensor_map_gnomad_annos_per_allele
  else if args.mode = "write_tensors_gnomad_1d" then .td_tensors_from_tensor_map_gnomad_annos_1d
  else if args.mode = "write_depristo" then .td_nist_samples_to_png
  else if args.mode = "write_calling_tensors" then .td_calling_tensors_from_tensor_map
  else if args.mode = "write_pileup_filter_tensors" then .td_tensors_from_tensor_map_pileup
  else if args.mode = "write_calling_tensors_1d" then .td_calling_tensors_from_tensor_map_pileup
  else if args.mode = "write_dna_tensors" then .td_write_dna_and_annotations
  else if args.mode = "write_bed_tensors" then .td_write_dna_multisource_annotations
  else if args.mode = "write_bed_tensors_dna" then .td_write_dna_multisource_annotations_dna_only
  else if args.mode = "write_bed_tensors_annotations" then .td_write_dna_multisource_annotations_annos_only
  else if args.mode = "write_bqsr_tensors" then .td_bqsr_tensors_from_tensor_map
  else if args.mode = "write_filters_2d" then .write_filters_2d
  else if args.mode = "write_filters_1d" then .write_filters_1d
  else if args.mode = "write_tranches" then .td_write_tranches
  else if args.mode = "inspect_tensors" then .td_inspect_read_tensors
  else if args.mode = "inspect_dataset" then .td_inspect_dataset
  else if args.mode = "inspect_architectures" then .inspect_architectures
  else if args.mode = "inspect_gnomad" then .td_inspect_gnomad_low_ac
  else if args.mode = "combine_vcfs" then .td_combine_vcfs
  else .unknown_mode args.mode

/-- The finite map (mode string → recipe action) read off `run()`'s dispatch
chain, one entry per branch, in source order. -/
def modeTable : List (String × RecipeAction) :=
  [ ("train_reference", .make_reference_net)
  , ("train_reference_annotation", .make_reference_annotation_net)
  , ("train_reference_plus_skip", .train_reference_plus_skip)
  , ("train_reference_1layer", .make_reference_annotation_net_1layer)
  , ("train_annotation_mlp", .make_annotation_multilayer_perceptron)
  , ("train_ref_read", .train_ref_read_model)
  , ("train_ref_read_resnet", .train_ref_read_resnet_model)
  , ("train_ref_read_dilated", .train_ref_read_dilated_model)
  , ("train_train_ref_read_b", .train_ref_read_model_b)
  , ("train_ref_read_bayes", .train_ref_read_inception_model)
  , ("train_pileup_filter", .train_pileup_filter)
  , ("train_calling_model", .train_calling_model)
  , ("train_calling_full2d", .train_calling_model_full)
  , ("train_calling_model_1d", .train_calling_model_1d)
  , ("train_ref_read_anno", .train_ref_read_annotation_model)
  , ("train_ref_read_anno_exome", .train_ref_read_annotation_exome_model)
  , ("train_bqsr", .bqsr_train_tensor)
  , ("train_bqsr_anno", .bqsr_train_annotation_tensor)
  , ("train_bqsr_lstm", .bqsr_lstm_train_tensor)
  , ("train_depristo_inception", .depristo_inception)
  , ("test_tensor", .test_tensor_and_annotations)
  , ("test_tensor_exome", .test_ref_read_annotation_exome_model)
  , ("test_tensor_vcf", .test_tensor_vs_vcf)
  , ("test_tensor_multi_vcf", .test_tensor_vs_multiple_vcfs)
  , ("test_tensor_filters", .test_tensor_and_annotations_vs_filters)
  , ("test_tensor_gnomad", .test_tensor_vs_gnomad)
  , ("test_refconv_gnomad", .test_refconv_vs_gnomad)
  , ("test_refconv", .test_reference_annotation_net)
  , ("test_ref", .test_reference_net)
  , ("test_anno_mlp", .test_annotation_multilayer_perceptron)
  , ("test_caller", .test_caller_pileup)
  , ("test_caller_2d", .test_caller_2d)
  , ("test_architectures", .test_architectures)
  , ("plot_vcf_roc", .plot_vcf_roc)
  , ("plot_vcf_roc_gnomad", .plot_vcf_roc_gnomad_scores)
  , ("plot_vcf_roc_gnomad_like", .plot_vcf_roc_gnomad_like_scores)
  , ("plot_multi_vcf_roc", .plot_multi_vcf_roc)
  , ("roc_animation", .roc_curve_through_learning)
  , ("pr_segmentation_animation", .roc_curve_through_learning_segmentation)
  , ("write_tensors", .td_tensors_from_tensor_map_with_annotations)
  , ("write_paired_read_tensors", .td_paired_read_tensors_from_map)
  , ("write_tensors_2bit", .td_tensors_from_tensor_map_2channel)
  , ("write_tensors_no_annotations", .td_tensors_from_tensor_map_no_annotations)
  , ("write_tensors_gnomad_annotations", .td_tensors_from_tensor_map_gnomad_annos)
  , ("write_tensors_gnomad_annotations_per_allele_1d", .td_tensors_from_tensor_map_gnomad_annos_per_allele)
  , ("write_tensors_gnomad_1d", .td_tensors_from_tensor_map_gnomad_annos_1d)
  , ("write_depristo", .td_nist_samples_to_png)
  , ("write_calling_tensors", .td_calling_tensors_from_tensor_map)
  , ("write_pileup_filter_tensors", .td_tensors_from_tensor_map_pileup)
  , ("write_calling_tensors_1d", .td_calling_tensors_from_tensor_map_pileup)
  , ("write_dna_tensors", .td_write_dna_and_annotations)
  , ("write_bed_tensors", .td_write_dna_multisource_annotations)
  , ("write_bed_tensors_dna", .td_write_dna_multisource_annotations_dna_only)
  , ("write_bed_tensors_annotations", .td_write_dna_multisource_annotations_annos_only)
  , ("write_bqsr_tensors", .td_bqsr_tensors_from_tensor_map)
  , ("write_filters_2d", .write_filters_2d)
  , ("write_filters_1d", .write_filters_1d)
  , ("write_tranches", .td_write_tranches)
  , ("inspect_tensors", .td_inspect_read_tensors)
  , ("inspect_dataset", .td_inspect_dataset)
  , ("inspect_architectures", .inspect_architectures)
  , ("inspect_gnomad", .td_inspect_gnomad_low_ac)
  , ("combine_vcfs", .td_combine_vcfs)
  ]

/-- The recognized mode strings, in source order. -/
def recognizedModes : List String := modeTable.map Prod.fst

/-- Association-list lookup: the standard finite-map lookup on a table. -/
def lookupMode (m : String) : List (String × RecipeAction) → Option RecipeAction
  | [] => none
  | (k, a) :: t => if m = k then some a else lookupMode m t

/-- `run()` as the spec describes it: a single lookup in a finite map from
mode strings to recipe actions, with a default error action. -/
def runTable (args : Args) : RecipeAction :=
  (lookupMode args.mode modeTable).getD (.unknown_mode args.mode)

/-- An if/elif chain over a table of (guard string, action) pairs, ending in
the unknown-mode error action. -/
def chainDispatch (m : String) : List (String × RecipeAction) → RecipeAction
  | [] => .unknown_mode m
  | (k, a) :: t => if m = k then a else chainDispatch m t

/-- A concrete parsed-argument record with the given mode, for evaluation. -/
def exampleArgs (m : String) : Args :=
  { mode := m, data_dir := "/data/", id := "w", samples := 1, epochs := 2,
    iterations := 3, batch_size := 4, window_size := 5, read_limit := 6,
    labels := ["SNP", "INDEL"], annotations := "_", annotation_set := "_",
    single_sample_vqsr := false, deep_variant_vcf := false, channels_last := false }

/-- A second concrete record with the given mode, differing from
`exampleArgs m` in every field other than `mode`. -/
def exampleArgsAlt (m : String) : Args :=
  { mode := m, data_dir := "/other/", id := "z", samples := 7, epochs := 8,
    iterations := 9, batch_size := 10, window_size := 11, read_limit := 12,
    labels := ["NOT_SNP"], annotations := "anno", annotation_set := "best_practices",
    single_sample_vqsr := true, deep_variant_vcf := true, channels_last := true }

/-- A Python runtime name-resolution error. -/
inductive PyError where
  | nameError (n : String)
  deriving Repr, DecidableEq

/-- One Python statement, abstracted to the names its right-hand side reads
(in evaluation order) and the local names its assignment targets bind. -/
structure Stmt where
  reads : List String
  binds : List String

/-- Evaluate the reads of one statement: the first name found in neither the
local nor the module-global environment raises `NameError`. -/
def resolveReads (locals globals : List String) : List String → Except PyError Unit
  | [] => .ok ()
  | r :: rs =>
    if r ∈ locals ∨ r ∈ globals then resolveReads locals globals rs
    else .error (.nameError r)

/-- Execute a function body: statements run in order, each first resolving its
reads and then binding its targets as locals. -/
def execBody (globals : List String) (locals : List String) : List Stmt → Except PyError Unit
  | [] => .ok ()
  | s :: rest =>
    match resolveReads locals globals s.reads with
    | .ok _ => execBody globals (locals ++ s.binds) rest
    | .error e => .error e

/-- The module-level names of `recipes.py`: its imports (lines 21-34) and its
top-level function definitions. -/
def recipesModuleGlobals : List String :=
  [ "os", "sys", "vcf", "h5py", "time", "plots", "pysam", "models", "defines"
  , "operator", "arguments", "np", "td", "Counter"
  , "run", "inspect_architectures", "train_calling_model", "train_calling_model_full"
  , "train_calling_model_1d", "train_pileup_filter", "test_caller_pileup", "test_caller_2d"
  , "bqsr_train_tensor", "bqsr_train_annotation_tensor", "bqsr_lstm_train_tensor"
  , "train_ref_read_model", "train_ref_read_model_b", "train_ref_read_resnet_model"
  , "train_ref_read_inception_model", "train_ref_read_dilated_model"
  , "train_ref_read_annotation_model", "train_ref_read_annotation_exome_model"
  , "test_tensor_and_annotations_vs_filters", "test_tensor_vs_vcf"
  , "test_tensor_vs_multiple_vcfs", "test_tensor_vs_gnomad", "test_refconv_vs_gnomad"
  , "plot_vcf_roc", "plot_vcf_roc_gnomad_scores", "plot_vcf_roc_gnomad_like_scores"
  , "plot_multi_vcf_roc", "test_tensor_and_annotations", "test_ref_read_annotation_exome_model"
  , "roc_curve_through_learning", "roc_curve_through_learning_segmentation"
  , "depristo_inception", "make_annotation_multilayer_perceptron", "make_reference_net"
  , "make_reference_annotation_net", "train_reference_plus_skip"
  , "make_reference_annotation_net_1layer", "test_reference_annotation_net"
  , "test_reference_net", "test_annotation_multilayer_perceptron"
  , "inference_with_architectures", "test_architectures" ]

/-- The body of `bqsr_lstm_train_tensor` (recipes.py lines 631-643), statement
by statement: reads in evaluation order, then bound targets.  The training
call on line 640 reads `weight_path`, which no statement of this body binds. -/
def bqsr_lstm_train_tensor_body : List Stmt :=
  [ ⟨["args", "defines"], []⟩
  , ⟨["args", "defines"], []⟩
  , ⟨["td", "args"], ["train_paths", "valid_paths", "test_paths"]⟩
  , ⟨["td", "args", "train_paths"], ["generate_train"]⟩
  , ⟨["td", "args", "valid_paths"], ["generate_valid"]⟩
  , ⟨["models", "args"], ["model"]⟩
  , ⟨["models", "args", "model", "generate_train", "generate_valid", "weight_path"], ["model"]⟩
  , ⟨["td", "args", "test_paths"], ["test"]⟩
  , ⟨["plots", "model", "test", "args"], []⟩
  ]

/-- The body of the sibling recipe `bqsr_train_tensor` (recipes.py lines
574-587), which binds `weight_path` (line 582) before the training call. -/
def bqsr_train_tensor_body : List Stmt :=
  [ ⟨["args", "defines"], []⟩
  , ⟨["args", "defines"], []⟩
  , ⟨["td", "args"], ["train_paths", "valid_paths", "test_paths"]⟩
  , ⟨["td", "args", "train_paths"], ["generate_train"]⟩
  , ⟨["td", "args", "valid_paths"], ["generate_valid"]⟩
  , ⟨["arguments", "args"], ["weight_path"]⟩
  , ⟨["models", "args"], ["model"]⟩
  , ⟨["models", "args", "model", "generate_train", "generate_valid", "weight_path"], ["model"]⟩
  , ⟨["td", "args", "test_paths"], ["test"]⟩
  , ⟨["plots", "model", "test", "args"], []⟩
  ]

/-- Python dict lookup `d[p]` on an association list: `none` models a
`KeyError`. -/
def dlookup {α β : Type} [DecidableEq α] (m : α) : List (α × β) → Option β
  | [] => none
  | (k, v) :: t => if m = k then some v else dlookup m t

/-- The keys of a dict, `d.keys()`. -/
def dictKeys {α β : Type} (d : List (α × β)) : List α := d.map Prod.fst

/-- A list comprehension `[f(d[p]) for p in ks]`: `none` models the `KeyError`
raised at the first position missing from `d`. -/
def mapLookup {α β γ : Type} [DecidableEq α] (d : List (α × β)) (f : β → γ) :
    List α → Option (List γ)
  | [] => some []
  | p :: ps =>
    match dlookup p d, mapLookup d f ps with
    | some v, some vs => some (f v :: vs)
    | _, _ => none

/-- `test_tensor_and_annotations_vs_filters`, line 912 (and 913 for INDELs):
`[k for k in snp_heng_li.keys() if k in snp_gatk.keys() and k in
snp_gatk_scores.keys()]`.  Values of the baseline dicts are (score, truth)
pairs. -/
def sharedKeysFilters (hengLi gatk gatkScores : List (String × Int × Int)) : List String :=
  (dictKeys hengLi).filter
    (fun k => decide (k ∈ dictKeys gatk) && decide (k ∈ dictKeys gatkScores))

/-- The five lists built by `test_tensor_and_annotations_vs_filters` for one
variant class (lines 915-920 for SNPs, lines 922-927 for INDELs). -/
structure FilterScores where
  truth : List Int
  gatk_signed_distance : List Int
  gatk_hard_filters : List Int
  heng_li_hard_filters : List Int
  neural_net : List Int
  deriving Repr, DecidableEq

/-- Lines 915-920 (and 922-927): the truth list `[heng_li[p][1] for p in
shared]` and the four score lists, each a comprehension over the shared keys;
`none` models a `KeyError` in any of the comprehensions. -/
def filters_score_lists (hengLi gatk gatkScores : List (String × Int × Int))
    (cnn : List (String × Int)) : Option FilterScores :=
  let shared := sharedKeysFilters hengLi gatk gatkScores
  match mapLookup hengLi (fun v => v.2) shared, mapLookup gatkScores (fun v => v.1) shared,
      mapLookup gatk (fun v => v.1) shared, mapLookup hengLi (fun v => v.1) shared,
      mapLookup cnn id shared with
  | some t, some sgd, some ghf, some hl, some nn => some ⟨t, sgd, ghf, hl, nn⟩
  | _, _, _, _, _ => none

/-- `set(d.keys())` for a score dict. -/
def keySet (d : List (String × Int × Int)) : Finset String := (dictKeys d).toFinset

/-- `test_tensor_vs_gnomad`, lines 1096-1107: the list of key sets, seeded
with the gnomAD VQSR and random-forest sets and extended by the optional
single-sample VQSR and DeepVariant sets when those options are enabled. -/
def gnomad_key_sets (vqsr rf singleSample deepVariant : List (String × Int × Int))
    (single_sample_vqsr deep_variant_vcf : Bool) : List (Finset String) :=
  let sets := [keySet vqsr, keySet rf]
  let sets := if single_sample_vqsr then sets ++ [keySet singleSample] else sets
  if deep_variant_vcf then sets ++ [keySet deepVariant] else sets

/-- Python's `set.intersection(*sets)` on a list of sets (nonempty at both
call sites, lines 1109-1110). -/
def setIntersection : List (Finset String) → Finset String
  | [] => ∅
  | s :: rest => rest.foldl (· ∩ ·) s

/-- Lines 1109-1110: `shared_snp_keys = set.intersection(*snp_key_sets)` (and
identically for INDELs). -/
def gnomad_shared_keys (vqsr rf singleSample deepVariant : List (String × Int × Int))
    (single_sample_vqsr deep_variant_vcf : Bool) : Finset String :=
  setIntersection
    (gnomad_key_sets vqsr rf singleSample deepVariant single_sample_vqsr deep_variant_vcf)

/-- The parts of the filesystem the test recipes read: `os.listdir` and
`os.path.isdir`. -/
structure FileSystem where
  listing : String → List String
  isdir : String → Bool

/-- `test_reference_net`, lines 1703-1704: `test_dir = args.data_dir + 'test/'`
and `test_paths = [test_dir + vp for vp in sorted(os.listdir(test_dir)) if
os.path.isdir(test_dir + vp)]`. -/
def test_reference_net_test_paths (fs : FileSystem) (args : Args) : List String :=
  let test_dir := args.data_dir ++ "test/"
  (((fs.listing test_dir).mergeSort (fun a b => decide (a ≤ b))).filter
      (fun vp => fs.isdir (test_dir ++ vp))).map (fun vp => test_dir ++ vp)

/-- `test_reference_annotation_net`, lines 1661-1662: the same computation. -/
def test_reference_annotation_net_test_paths (fs : FileSystem) (args : Args) : List String :=
  let test_dir := args.data_dir ++ "test/"
  (((fs.listing test_dir).mergeSort (fun a b => decide (a ≤ b))).filter
      (fun vp => fs.isdir (test_dir ++ vp))).map (fun vp => test_dir ++ vp)

/-- `test_annotation_multilayer_perceptron`, lines 1745-1746: the same
computation. -/
def test_annotation_multilayer_perceptron_test_paths (fs : FileSystem) (args : Args) : List String :=
  let test_dir := args.data_dir ++ "test/"
  (((fs.listing test_dir).mergeSort (fun a b => decide (a ≤ b))).filter
      (fun vp => fs.isdir (test_dir ++ vp))).map (fun vp => test_dir ++ vp)

/-- The first `def roc_curve_through_learning` (lines 1380-1411): its training
loop is `for i in range(args.epochs)`, plotting with suffix `args.id+str(i)`
each iteration; the returned list has one entry per loop iteration. -/
def roc_curve_through_learning_def1 (args : Args) : List String :=
  (List.range args.epochs).map (fun i => args.id ++ toString i)

/-- The second `def roc_curve_through_learning` (lines 1413-1444): identical
except its training loop is `for i in range(args.iterations)`. -/
def roc_curve_through_learning_def2 (args : Args) : List String :=
  (List.range args.iterations).map (fun i => args.id ++ toString i)

/-- Loading a Python module binds each top-level `def` in order; a later `def`
of the same name replaces the earlier binding, so lookup searches the
bindings from last to first. -/
def moduleEnv {β : Type} (defs : List (String × β)) (n : String) : Option β :=
  dlookup n defs.reverse

/-- The two `def roc_curve_through_learning` statements of `recipes.py`, in
source order. -/
def rocDefs : List (String × (Args → List String)) :=
  [ ("roc_curve_through_learning", roc_curve_through_learning_def1)
  , ("roc_curve_through_learning", roc_curve_through_learning_def2) ]

end Recipes

namespace KerasExample

/-- The contents of the pickled MNIST file read by `load_data`
(`api_tutorials/keras_example.py` line 110): the three dataset splits in
file order. -/
structure MnistData (α : Type) where
  train_set : α
  valid_set : α
  test_set : α

/-- `load_data` (lines 76-119): returns `train_set, valid_set, test_set`
(line 119), in that order. -/
def load_data {α : Type} (d : MnistData α) : α × α × α :=
  (d.train_set, d.valid_set, d.test_set)

/-- Where each split flows in a caller: the split bound to the name `train`
and fit on; the split bound to `test`, whose evaluation is printed as
`Test set loss and accuracy`; and the split bound to `valid`, passed as
`validation_data` to `fit`. -/
structure SplitUse (α : Type) where
  train_split : α
  evaluated_split : α
  fit_validation_split : α

/-- `logistic_regression` (lines 37-50): `train, test, valid =
load_data('mnist.pkl.gz')`; `fit(train[0], ..., validation_data=(valid[0],
valid_y))`; `evaluate(test[0], test_y)` printed as test-set metrics. -/
def logistic_regression {α : Type} (d : MnistData α) : SplitUse α :=
  let t := load_data d
  let train := t.1
  let test := t.2.1
  let valid := t.2.2
  { train_split := train, evaluated_split := test, fit_validation_split := valid }

/-- `multilayer_perceptron` (lines 53-67): the same unpacking and uses. -/
def multilayer_perceptron {α : Type} (d : MnistData α) : SplitUse α :=
  let t := load_data d
  let train := t.1
  let test := t.2.1
  let valid := t.2.2
  { train_split := train, evaluated_split := test, fit_validation_split := valid }

end KerasExample

namespace Recipes

theorem run_eq_chainDispatch (args : Args) :
    run args = chainDispatch args.mode modeTable := rfl

theorem chainDispatch_eq_lookup (m : String) (t : List (String × RecipeAction)) :
    chainDispatch m t = (lookupMode m t).getD (.unknown_mode m) := by
  induction t with
  | nil => rfl
  | cons p t ih =>
    obtain ⟨k, a⟩ := p
    simp only [chainDispatch, lookupMode]
    by_cases h : m = k <;> simp [h, ih]

theorem lookupMode_eq_none_iff (m : String) (t : List (String × RecipeAction)) :
    lookupMode m t = none ↔ m ∉ t.map Prod.fst := by
  induction t with
  | nil => simp [lookupMode]
  | cons p t ih =>
    obtain ⟨k, a⟩ := p
    by_cases h : m = k <;> simp [lookupMode, h, ih]

theorem lookupMode_mem (m : String) (a : RecipeAction) (t : List (String × RecipeAction))
    (h : lookupMode m t = some a) : (m, a) ∈ t := by
  induction t with
  | nil => simp [lookupMode] at h
  | cons p t ih =>
    obtain ⟨k, b⟩ := p
    by_cases hk : m = k
    · simp only [lookupMode, if_pos hk] at h
      subst hk
      obtain rfl : b = a := Option.some.inj h
      exact List.mem_cons_self _ _
    · simp only [lookupMode, if_neg hk] at h
      exact List.mem_cons_of_mem _ (ih h)

theorem lookupMode_of_mem_nodup (m : String) (a : RecipeAction)
    (t : List (String × RecipeAction)) (hnd : (t.map Prod.fst).Nodup)
    (hmem : (m, a) ∈ t) : lookupMode m t = some a := by
  induction t with
  | nil => simp at hmem
  | cons p t ih =>
    obtain ⟨k, b⟩ := p
    simp only [List.map_cons, List.nodup_cons] at hnd
    rcases List.mem_cons.mp hmem with hhead | htail
    · have h1 : m = k := congrArg Prod.fst hhead
      have h2 : a = b := congrArg Prod.snd hhead
      subst h1; subst h2
      simp [lookupMode]
    · have hk : m ≠ k := by
        rintro rfl
        exact hnd.1 (List.mem_map.mpr ⟨(m, a), htail, rfl⟩)
      simp only [lookupMode, if_neg hk]
      exact ih hnd.2 htail

set_option maxHeartbeats 1000000 in
theorem recognizedModes_nodup : recognizedModes.Nodup := by decide

/-- C1: for every parsed argument record whose mode is one of the recognized
recipe mode strings, `run()` invokes exactly the unique recipe action guarded
by that string, determined by string equality against the fixed finite set of
literals of the dispatch chain. -/
theorem run_selects_unique_guarded_recipe (args : Args)
    (h : args.mode ∈ recognizedModes) :
    ∃ a, (args.mode, a) ∈ modeTable ∧ run args = a ∧
      ∀ b, (args.mode, b) ∈ modeTable → b = a := by
  have h' : args.mode ∈ modeTable.map Prod.fst := h
  obtain ⟨⟨k, a⟩, hp, hfst⟩ := List.mem_map.mp h'
  have hk : k = args.mode := hfst
  subst hk
  have hl : lookupMode args.mode modeTable = some a :=
    lookupMode_of_mem_nodup _ _ _ recognizedModes_nodup hp
  refine ⟨a, hp, ?_, ?_⟩
  · rw [run_eq_chainDispatch, chainDispatch_eq_lookup, hl]
    rfl
  · intro b hb
    have hlb : lookupMode args.mode modeTable = some b :=
      lookupMode_of_mem_nodup _ _ _ recognizedModes_nodup hb
    exact Option.some.inj (hlb.symm.trans hl)

/-- Witness for C1 at the concrete mode `train_bqsr_lstm`. -/
theorem run_selects_unique_guarded_recipe_witness :
    (exampleArgs "train_bqsr_lstm").mode ∈ recognizedModes ∧
    ∃ a, ((exampleArgs "train_bqsr_lstm").mode, a) ∈ modeTable ∧
      run (exampleArgs "train_bqsr_lstm") = a ∧
      ∀ b, ((exampleArgs "train_bqsr_lstm").mode, b) ∈ modeTable → b = a :=
  ⟨by decide, run_selects_unique_guarded_recipe (exampleArgs "train_bqsr_lstm") (by decide)⟩

/-- C2: for every mode string equal to none of the recognized recipe modes,
`run()` invokes no recipe function: it selects only the final `else` branch,
which prints an error naming the unknown mode. -/
theorem run_unknown_mode_only_prints_error (args : Args)
    (h : args.mode ∉ recognizedModes) :
    run args = .unknown_mode args.mode := by
  have hn : lookupMode args.mode modeTable = none :=
    (lookupMode_eq_none_iff _ _).mpr h
  rw [run_eq_chainDispatch, chainDispatch_eq_lookup, hn]
  rfl

/-- Witness for C2 at the concrete unknown mode `frobnicate`. -/
theorem run_unknown_mode_only_prints_error_witness :
    (exampleArgs "frobnicate").mode ∉ recognizedModes ∧
    run (exampleArgs "frobnicate") = .unknown_mode (exampleArgs "frobnicate").mode :=
  ⟨by decide, run_unknown_mode_only_prints_error (exampleArgs "frobnicate") (by decide)⟩

/-- C3: `run()`'s if/elif chain is semantically equivalent to a single lookup
in a finite map from mode strings to recipe actions with a default error
action, and the recognized mode strings are pairwise distinct. -/
theorem run_dispatch_equiv_table_lookup :
    (∀ args : Args, run args = runTable args) ∧ recognizedModes.Nodup :=
  ⟨fun args => by rw [run_eq_chainDispatch, chainDispatch_eq_lookup]; rfl,
   recognizedModes_nodup⟩

/-- C7: the branch selected by `run()` depends only on `args.mode`: two parsed
argument records agreeing on `mode` select the same recipe action. -/
theorem run_branch_depends_only_on_mode (a1 a2 : Args) (h : a1.mode = a2.mode) :
    run a1 = run a2 := by
  rw [run_eq_chainDispatch, run_eq_chainDispatch, h]

/-- Witness for C7: two records with mode `test_ref` differing in every other
field select the same branch. -/
theorem run_branch_depends_only_on_mode_witness :
    (exampleArgs "test_ref").mode = (exampleArgsAlt "test_ref").mode ∧
    run (exampleArgs "test_ref") = run (exampleArgsAlt "test_ref") :=
  ⟨rfl, run_branch_depends_only_on_mode (exampleArgs "test_ref") (exampleArgsAlt "test_ref") rfl⟩

/-- C4: every invocation of `bqsr_lstm_train_tensor` fails with a `NameError`
at the read of `weight_path` in the training call: no statement of its body
binds `weight_path`, nor is it a module global; its sibling
`bqsr_train_tensor` binds `weight_path` first and resolves all its names. -/
theorem bqsr_lstm_train_tensor_name_error :
    execBody recipesModuleGlobals ["args"] bqsr_lstm_train_tensor_body
        = .error (.nameError "weight_path") ∧
    "weight_path" ∉ (bqsr_lstm_train_tensor_body.map Stmt.binds).flatten ∧
    "weight_path" ∉ recipesModuleGlobals ∧
    "weight_path" ∈ (bqsr_train_tensor_body.map Stmt.binds).flatten ∧
    execBody recipesModuleGlobals ["args"] bqsr_train_tensor_body = .ok () :=
  ⟨rfl, by decide, by decide, by decide, rfl⟩

theorem mapLookup_length {α β γ : Type} [DecidableEq α] (d : List (α × β)) (f : β → γ)
    (ks : List α) (vs : List γ) (h : mapLookup d f ks = some vs) :
    vs.length = ks.length := by
  induction ks generalizing vs with
  | nil =>
    simp only [mapLookup] at h
    obtain rfl : ([] : List γ) = vs := Option.some.inj h
    rfl
  | cons p ps ih =>
    cases hd : dlookup p d with
    | none => simp [mapLookup, hd] at h
    | some v =>
      cases hm : mapLookup d f ps with
      | none => simp [mapLookup, hd, hm] at h
      | some ws =>
        simp only [mapLookup, hd, hm] at h
        obtain rfl : f v :: ws = vs := Option.some.inj h
        simp [ih ws hm]

theorem mem_sharedKeysFilters (hengLi gatk gatkScores : List (String × Int × Int))
    (k : String) :
    k ∈ sharedKeysFilters hengLi gatk gatkScores ↔
      k ∈ dictKeys hengLi ∧ k ∈ dictKeys gatk ∧ k ∈ dictKeys gatkScores := by
  simp [sharedKeysFilters, List.mem_filter, and_assoc]

/-- C5: in `test_tensor_and_annotations_vs_filters`, the truth list and the
four score lists are comprehensions over exactly the positions present in all
three baseline dicts (Heng Li, GATK hard filters, GATK signed distance), so
whenever they are built all five have equal length; the same function applied
to the INDEL dicts gives the INDEL block (lines 922-927). -/
theorem filters_score_lists_shared_keys_and_lengths
    (hengLi gatk gatkScores : List (String × Int × Int)) (cnn : List (String × Int))
    (fs : FilterScores)
    (hfs : filters_score_lists hengLi gatk gatkScores cnn = some fs) :
    (∀ k, k ∈ sharedKeysFilters hengLi gatk gatkScores ↔
      k ∈ dictKeys hengLi ∧ k ∈ dictKeys gatk ∧ k ∈ dictKeys gatkScores) ∧
    fs.truth.length = (sharedKeysFilters hengLi gatk gatkScores).length ∧
    fs.gatk_signed_distance.length = fs.truth.length ∧
    fs.gatk_hard_filters.length = fs.truth.length ∧
    fs.heng_li_hard_filters.length = fs.truth.length ∧
    fs.neural_net.length = fs.truth.length := by
  refine ⟨mem_sharedKeysFilters hengLi gatk gatkScores, ?_⟩
  rw [filters_score_lists] at hfs
  split at hfs
  · rename_i t sgd ghf hl nn h1 h2 h3 h4 h5
    obtain rfl : FilterScores.mk t sgd ghf hl nn = fs := Option.some.inj hfs
    have l1 := mapLookup_length _ _ _ _ h1
    have l2 := mapLookup_length _ _ _ _ h2
    have l3 := mapLookup_length _ _ _ _ h3
    have l4 := mapLookup_length _ _ _ _ h4
    have l5 := mapLookup_length _ _ _ _ h5
    exact ⟨l1, by rw [l2, l1], by rw [l3, l1], by rw [l4, l1], by rw [l5, l1]⟩
  · exact absurd hfs (by simp)

/-- Witness for C5 at concrete dicts: positions `1:100` and `1:300` are shared,
`1:200` (missing from the GATK dicts) and `1:400` (missing from Heng Li) are
not; all five lists have length 2. -/
theorem filters_score_lists_witness :
    filters_score_lists
        [("1:100", (5, 1)), ("1:200", (3, 0)), ("1:300", (2, 1))]
        [("1:100", (7, 1)), ("1:300", (1, 1))]
        [("1:100", (9, 1)), ("1:300", (4, 1)), ("1:400", (8, 0))]
        [("1:100", 6), ("1:300", 2)]
      = some ⟨[1, 1], [9, 4], [7, 1], [5, 2], [6, 2]⟩ ∧
    ((∀ k, k ∈ sharedKeysFilters
        [("1:100", (5, 1)), ("1:200", (3, 0)), ("1:300", (2, 1))]
        [("1:100", (7, 1)), ("1:300", (1, 1))]
        [("1:100", (9, 1)), ("1:300", (4, 1)), ("1:400", (8, 0))] ↔
      k ∈ dictKeys [("1:100", (5, 1)), ("1:200", (3, 0)), ("1:300", (2, 1))] ∧
      k ∈ dictKeys [("1:100", (7, 1)), ("1:300", (1, 1))] ∧
      k ∈ dictKeys [("1:100", (9, 1)), ("1:300", (4, 1)), ("1:400", (8, 0))]) ∧
    (FilterScores.mk [1, 1] [9, 4] [7, 1] [5, 2] [6, 2]).truth.length
        = (sharedKeysFilters
        [("1:100", (5, 1)), ("1:200", (3, 0)), ("1:300", (2, 1))]
        [("1:100", (7, 1)), ("1:300", (1, 1))]
        [("1:100", (9, 1)), ("1:300", (4, 1)), ("1:400", (8, 0))]).length ∧
    (FilterScores.mk [1, 1] [9, 4] [7, 1] [5, 2] [6, 2]).gatk_signed_distance.length
        = (FilterScores.mk [1, 1] [9, 4] [7, 1] [5, 2] [6, 2]).truth.length ∧
    (FilterScores.mk [1, 1] [9, 4] [7, 1] [5, 2] [6, 2]).gatk_hard_filters.length
        = (FilterScores.mk [1, 1] [9, 4] [7, 1] [5, 2] [6, 2]).truth.length ∧
    (FilterScores.mk [1, 1] [9, 4] [7, 1] [5, 2] [6, 2]).heng_li_hard_filters.length
        = (FilterScores.mk [1, 1] [9, 4] [7, 1] [5, 2] [6, 2]).truth.length ∧
    (FilterScores.mk [1, 1] [9, 4] [7, 1] [5, 2] [6, 2]).neural_net.length
        = (FilterScores.mk [1, 1] [9, 4] [7, 1] [5, 2] [6, 2]).truth.length) :=
  ⟨by decide,
   filters_score_lists_shared_keys_and_lengths
     [("1:100", (5, 1)), ("1:200", (3, 0)), ("1:300", (2, 1))]
     [("1:100", (7, 1)), ("1:300", (1, 1))]
     [("1:100", (9, 1)), ("1:300", (4, 1)), ("1:400", (8, 0))]
     [("1:100", 6), ("1:300", 2)]
     (FilterScores.mk [1, 1] [9, 4] [7, 1] [5, 2] [6, 2]) (by decide)⟩

theorem mem_foldl_inter (k : String) (l : List (Finset String)) (s : Finset String) :
    k ∈ l.foldl (· ∩ ·) s ↔ k ∈ s ∧ ∀ t ∈ l, k ∈ t := by
  induction l generalizing s with
  | nil => simp
  | cons a l ih =>
    simp only [List.foldl_cons, ih, Finset.mem_inter, List.mem_cons]
    constructor
    · rintro ⟨⟨hs, ha⟩, hl⟩
      exact ⟨hs, fun t ht => ht.elim (fun h => h ▸ ha) (hl t)⟩
    · rintro ⟨hs, hl⟩
      exact ⟨⟨hs, hl a (Or.inl rfl)⟩, fun t ht => hl t (Or.inr ht)⟩

theorem foldl_inter_subset (l : List (Finset String)) (s : Finset String) :
    l.foldl (· ∩ ·) s ⊆ s := by
  intro k hk
  exact ((mem_foldl_inter k l s).mp hk).1

/-- C6: in `test_tensor_vs_gnomad` the evaluated position set is the
intersection of the key sets of all baseline score dictionaries in the list,
and enabling `args.single_sample_vqsr` or `args.deep_variant_vcf` can only
shrink or preserve it relative to running with both options disabled. -/
theorem gnomad_shared_keys_intersection_and_antitone
    (vqsr rf singleSample deepVariant : List (String × Int × Int))
    (b1 b2 : Bool) :
    (∀ k, k ∈ gnomad_shared_keys vqsr rf singleSample deepVariant b1 b2 ↔
        ∀ s ∈ gnomad_key_sets vqsr rf singleSample deepVariant b1 b2, k ∈ s) ∧
    gnomad_shared_keys vqsr rf singleSample deepVariant b1 b2 ⊆
      gnomad_shared_keys vqsr rf singleSample deepVariant false false := by
  constructor
  · intro k
    cases b1 <;> cases b2 <;>
      simp [gnomad_shared_keys, gnomad_key_sets, setIntersection, mem_foldl_inter]
  · cases b1 <;> cases b2 <;>
      simp only [gnomad_shared_keys, gnomad_key_sets, setIntersection,
        if_true, if_false, Bool.false_eq_true, List.cons_append, List.nil_append,
        List.foldl_cons, List.foldl_nil] <;>
      intro k hk <;>
      simp only [mem_foldl_inter, List.mem_nil_iff, List.mem_cons, Finset.mem_inter] at hk ⊢ <;>
      simp_all

/-- Witness for C6 evaluated at concrete dicts: with both options enabled the
shared set shrinks from {1:100, 1:300} to {1:100}. -/
theorem gnomad_shared_keys_witness :
    (∀ k, k ∈ gnomad_shared_keys
        [("1:100", (5, 1)), ("1:200", (3, 0)), ("1:300", (2, 1))]
        [("1:100", (7, 1)), ("1:300", (1, 1))]
        [("1:100", (9, 1)), ("1:400", (8, 0))]
        [("1:100", 6, 1)] true true ↔
      ∀ s ∈ gnomad_key_sets
        [("1:100", (5, 1)), ("1:200", (3, 0)), ("1:300", (2, 1))]
        [("1:100", (7, 1)), ("1:300", (1, 1))]
        [("1:100", (9, 1)), ("1:400", (8, 0))]
        [("1:100", 6, 1)] true true, k ∈ s) ∧
    gnomad_shared_keys
        [("1:100", (5, 1)), ("1:200", (3, 0)), ("1:300", (2, 1))]
        [("1:100", (7, 1)), ("1:300", (1, 1))]
        [("1:100", (9, 1)), ("1:400", (8, 0))]
        [("1:100", 6, 1)] true true ⊆
      gnomad_shared_keys
        [("1:100", (5, 1)), ("1:200", (3, 0)), ("1:300", (2, 1))]
        [("1:100", (7, 1)), ("1:300", (1, 1))]
        [("1:100", (9, 1)), ("1:400", (8, 0))]
        [("1:100", 6, 1)] false false :=
  gnomad_shared_keys_intersection_and_antitone
    [("1:100", (5, 1)), ("1:200", (3, 0)), ("1:300", (2, 1))]
    [("1:100", (7, 1)), ("1:300", (1, 1))]
    [("1:100", (9, 1)), ("1:400", (8, 0))]
    [("1:100", 6, 1)] true true

theorem string_le_trans_bool (a b c : String)
    (hab : decide (a ≤ b) = true) (hbc : decide (b ≤ c) = true) :
    decide (a ≤ c) = true := by
  simp only [decide_eq_true_eq] at hab hbc ⊢
  exact le_trans hab hbc

theorem string_le_total_bool (a b : String) :
    (decide (a ≤ b) || decide (b ≤ a)) = true := by
  simp only [Bool.or_eq_true, decide_eq_true_eq]
  exact le_total a b

/-- C8: in all three test recipes the class paths evaluated are exactly the
entries of `args.data_dir + 'test/'` that are directories, non-directories
excluded, taken in sorted order of the directory listing. -/
theorem test_paths_directories_sorted (fs : FileSystem) (args : Args) :
    test_reference_net_test_paths fs args
        = test_reference_annotation_net_test_paths fs args ∧
    test_reference_net_test_paths fs args
        = test_annotation_multilayer_perceptron_test_paths fs args ∧
    (∀ p, p ∈ test_reference_net_test_paths fs args ↔
      ∃ vp, vp ∈ fs.listing (args.data_dir ++ "test/") ∧
        fs.isdir (args.data_dir ++ "test/" ++ vp) = true ∧
        p = args.data_dir ++ "test/" ++ vp) ∧
    (∃ vps, List.Pairwise (· ≤ ·) vps ∧
      (∀ vp ∈ vps, vp ∈ fs.listing (args.data_dir ++ "test/") ∧
        fs.isdir (args.data_dir ++ "test/" ++ vp) = true) ∧
      test_reference_net_test_paths fs args
          = vps.map (fun vp => args.data_dir ++ "test/" ++ vp)) := by
  refine ⟨rfl, rfl, ?_, ?_⟩
  · intro p
    simp only [test_reference_net_test_paths, List.mem_map, List.mem_filter,
      List.mem_mergeSort]
    constructor
    · rintro ⟨vp, ⟨hmem, hdir⟩, rfl⟩
      exact ⟨vp, hmem, hdir, rfl⟩
    · rintro ⟨vp, hmem, hdir, rfl⟩
      exact ⟨vp, ⟨hmem, hdir⟩, rfl⟩
  · refine ⟨((fs.listing (args.data_dir ++ "test/")).mergeSort
        (fun a b => decide (a ≤ b))).filter
        (fun vp => fs.isdir (args.data_dir ++ "test/" ++ vp)), ?_, ?_, rfl⟩
    · have hs : (((fs.listing (args.data_dir ++ "test/")).mergeSort
          (fun a b => decide (a ≤ b)))).Pairwise (fun a b => decide (a ≤ b) = true) := by
        have := List.sorted_mergeSort string_le_trans_bool string_le_total_bool
          (fs.listing (args.data_dir ++ "test/"))
        exact this
      have hf : ((((fs.listing (args.data_dir ++ "test/")).mergeSort
          (fun a b => decide (a ≤ b))).filter
          (fun vp => fs.isdir (args.data_dir ++ "test/" ++ vp))).Pairwise
          (fun a b => decide (a ≤ b) = true)) :=
        hs.sublist (List.filter_sublist _)
      exact hf.imp (fun h => of_decide_eq_true h)
    · intro vp hvp
      have h := List.mem_filter.mp hvp
      exact ⟨List.mem_mergeSort.mp h.1, h.2⟩

/-- C9: at module load the second definition of `roc_curve_through_learning`
replaces the first, so the `roc_animation` recipe (dispatched to that name)
executes the second definition, whose training loop runs `args.iterations`
times; the first definition's loop would have run `args.epochs` times but is
unreachable. -/
theorem roc_curve_through_learning_second_def_shadows :
    moduleEnv rocDefs "roc_curve_through_learning" = some roc_curve_through_learning_def2 ∧
    run (exampleArgs "roc_animation") = .roc_curve_through_learning ∧
    (∀ args : Args, (roc_curve_through_learning_def2 args).length = args.iterations) ∧
    (∀ args : Args, (roc_curve_through_learning_def1 args).length = args.epochs) := by
  refine ⟨rfl, rfl, ?_, ?_⟩ <;>
    intro args <;>
    simp [roc_curve_through_learning_def2, roc_curve_through_learning_def1]

end Recipes


namespace KerasExample

/-- C10: `load_data` returns `(train_set, valid_set, test_set)`, but both
callers unpack the result as `train, test, valid`; hence the split evaluated
and printed as `Test set loss and accuracy` is the file's validation split,
and the split passed as `validation_data` is the file's test split, in both
`logistic_regression` and `multilayer_perceptron`. -/
theorem load_data_unpack_swaps_test_and_valid {α : Type} (d : MnistData α) :
    load_data d = (d.train_set, d.valid_set, d.test_set) ∧
    (logistic_regression d).evaluated_split = d.valid_set ∧
    (logistic_regression d).fit_validation_split = d.test_set ∧
    (multilayer_perceptron d).evaluated_split = d.valid_set ∧
    (multilayer_perceptron d).fit_validation_split = d.test_set :=
  ⟨rfl, rfl, rfl, rfl, rfl⟩

end KerasExample
